import Mathlib

/-!
# Verification of the light-transition detector of mc-chest-soundfx-app

The repository's only algorithmic logic is `detectLightLevel` in
`script.js` (lines 154-197): a hysteresis/debounce state machine over
brightness samples.  On each tick it reads a brightness value, skips
evaluation entirely while inside a 2000 ms cooldown window after the last
trigger, otherwise compares `brightness - previousLightLevel` against the
`sensitivity` threshold: a strict increase beyond the threshold while the
chest is considered closed plays the open sound and flips the flag, a
strict symmetric decrease while open plays the close sound, and the
baseline `previousLightLevel` is refreshed only when, after any trigger in
the same call, the state is still outside the cooldown window.

This file embeds that function shallowly (sound playback becomes an
emitted `Event`, `Date.now()` becomes an explicit `now : Int` parameter,
the module-level mutable variables become a `DetectorState` record) and
proves the specification's claims about it.
-/

/-- Events a detector step can emit: the spec's `OpenedEvent` stands for
the code's `playChestOpenSound()` call, `ClosedEvent` for
`playChestCloseSound()`. -/
inductive Event where
  | OpenedEvent
  | ClosedEvent
deriving Repr, DecidableEq

/-- The mutable module-level variables of `script.js` that
`detectLightLevel` reads and writes, gathered into one record (the spec's
`DetectorState`): `previousLightLevel` (line 27), `isChestOpen` (line 25),
`lastTriggerTime` (line 30) and `sensitivity` (line 24).  JS numbers are
integral here (`Math.round`, `parseInt`, `Date.now`), so all fields are
`Int`. -/
structure DetectorState where
  previousLightLevel : Int
  isChestOpen : Bool
  lastTriggerTime : Int
  sensitivity : Int
deriving Repr, DecidableEq

/-- The constant `triggerCooldown = 2000` of `script.js` line 31. -/
def triggerCooldown : Int := 2000

/-- Shallow embedding of `detectLightLevel` (`script.js` lines 154-197),
from the point where `brightness` has been computed: the cooldown early
return (lines 170-173), the two trigger branches (lines 179-191) and the
guarded baseline update (lines 193-196).  Instead of playing a sound the
function returns the emitted event, and instead of mutating globals it
returns the updated state. -/
def detectLightLevel (s : DetectorState) (brightness : Int) (now : Int) :
    Option Event × DetectorState :=
  if now - s.lastTriggerTime < triggerCooldown then
    (none, s)
  else
    let lightDifference := brightness - s.previousLightLevel
    let triggered :=
      if lightDifference > s.sensitivity ∧ s.isChestOpen = false then
        (some Event.OpenedEvent,
          { s with isChestOpen := true, lastTriggerTime := now })
      else if lightDifference < -s.sensitivity ∧ s.isChestOpen = true then
        (some Event.ClosedEvent,
          { s with isChestOpen := false, lastTriggerTime := now })
      else
        (none, s)
    if now - triggered.2.lastTriggerTime ≥ triggerCooldown then
      (triggered.1, { triggered.2 with previousLightLevel := brightness })
    else
      triggered

/-- The state right after the start-button handler resets the detector
variables (`script.js` lines 113-114 set `previousLightLevel = 0` and
`lastTriggerTime = 0`; `isChestOpen` starts `false` at line 25 and
`sensitivity` defaults to `10` at line 24). -/
def initState : DetectorState :=
  { previousLightLevel := 0, isChestOpen := false,
    lastTriggerTime := 0, sensitivity := 10 }

/-- Folding the detector over a list of timestamped samples: the state
after the whole run.  Models the repeated `setInterval` invocations of
`detectLightLevel`. -/
def runState (s : DetectorState) : List (Int × Int) → DetectorState
  | [] => s
  | (b, t) :: rest => runState (detectLightLevel s b t).2 rest

/-- Folding the detector over a list of timestamped samples, collecting
the events emitted along the way in order (a `none` result contributes
nothing, a `some e` result contributes `e`). -/
def runEvents (s : DetectorState) : List (Int × Int) → List Event
  | [] => []
  | (b, t) :: rest =>
    (detectLightLevel s b t).1.toList ++
      runEvents (detectLightLevel s b t).2 rest

/-- The spec's fixed `cooldownDuration` constant (2000 ms), named as in
spec section 3. -/
def cooldownDuration : Int := 2000

/-- Steps 2-5 of the spec's section 4 algorithm, written from the spec's
words: compute `delta`, then either emit `OpenedEvent` and open, emit
`ClosedEvent` and close, or emit nothing. -/
def specTransition (s : DetectorState) (delta : Int) (now : Int) :
    Option Event × DetectorState :=
  if delta > s.sensitivity ∧ s.isChestOpen = false then
    (some Event.OpenedEvent,
      { s with isChestOpen := true, lastTriggerTime := now })
  else if delta < -s.sensitivity ∧ s.isChestOpen = true then
    (some Event.ClosedEvent,
      { s with isChestOpen := false, lastTriggerTime := now })
  else
    (none, s)

/-- The full `observe` contract of spec section 4, written from the spec's
words: step 1 skips evaluation inside the cooldown window, steps 2-5 are
`specTransition`, and step 6 refreshes `previousLevel` with the sample
when, after steps 1-5, the state is outside the cooldown window. -/
def observeSpec (s : DetectorState) (sample : Int) (now : Int) :
    Option Event × DetectorState :=
  if now - s.lastTriggerTime < cooldownDuration then
    (none, s)
  else
    let p := specTransition s (sample - s.previousLightLevel) now
    if now - p.2.lastTriggerTime ≥ cooldownDuration then
      (p.1, { p.2 with previousLightLevel := sample })
    else
      p

/-- C1: the observe step of the code implements the section 4 algorithm
of the spec exactly — on every state, sample and timestamp,
`detectLightLevel` (embedded from the code) returns the same optional
event and the same updated state as `observeSpec` (written from the
spec's steps 1-6, where step 1 is the cooldown skip and steps 3-5 choose
between `OpenedEvent`, `ClosedEvent` and no event); in particular at most
one event is emitted per call, the result being an `Option Event`. -/
theorem c1_detect_implements_spec_algorithm :
    ∀ (s : DetectorState) (brightness now : Int),
      detectLightLevel s brightness now = observeSpec s brightness now :=
  fun _ _ _ => rfl

/-- C2: inside the cooldown window (`now - lastTriggerTime <
triggerCooldown`), no event is emitted and `isChestOpen` is unchanged,
regardless of the sample's magnitude. -/
theorem c2_cooldown_strict_lockout (s : DetectorState) (brightness now : Int)
    (h : now - s.lastTriggerTime < triggerCooldown) :
    (detectLightLevel s brightness now).1 = none ∧
      (detectLightLevel s brightness now).2.isChestOpen = s.isChestOpen := by
  simp [detectLightLevel, if_pos h]

/-- Witness for C2: a huge brightness drop 500 ms after a trigger emits
nothing and leaves the open flag alone. -/
theorem c2_cooldown_strict_lockout_witness :
    (detectLightLevel ⟨50, true, 0, 10⟩ 200 500).1 = none ∧
      (detectLightLevel ⟨50, true, 0, 10⟩ 200 500).2.isChestOpen =
        (⟨50, true, 0, 10⟩ : DetectorState).isChestOpen :=
  c2_cooldown_strict_lockout ⟨50, true, 0, 10⟩ 200 500 (by decide)

/-- C3: `previousLightLevel` after a call equals the sample exactly when
the call ends outside the cooldown window (the guard re-evaluated after
any trigger of that call), and otherwise keeps its old value — so it is
frozen on the triggering call and throughout the cooldown window. -/
theorem c3_previousLevel_update_iff (s : DetectorState) (brightness now : Int) :
    (detectLightLevel s brightness now).2.previousLightLevel =
      if triggerCooldown ≤ now - (detectLightLevel s brightness now).2.lastTriggerTime
      then brightness else s.previousLightLevel := by
  by_cases h1 : now - s.lastTriggerTime < triggerCooldown
  · simp only [detectLightLevel, if_pos h1]
    rw [if_neg (by omega)]
  · by_cases h2 : brightness - s.previousLightLevel > s.sensitivity ∧
        s.isChestOpen = false
    · simp only [detectLightLevel, if_neg h1, if_pos h2]
      rw [if_neg (by simp only [triggerCooldown]; omega),
        if_neg (by simp only [triggerCooldown]; omega)]
    · by_cases h3 : brightness - s.previousLightLevel < -s.sensitivity ∧
          s.isChestOpen = true
      · simp only [detectLightLevel, if_neg h1, if_neg h2, if_pos h3]
        rw [if_neg (by simp only [triggerCooldown]; omega),
          if_neg (by simp only [triggerCooldown]; omega)]
      · simp only [detectLightLevel, if_neg h1, if_neg h2, if_neg h3]
        rw [if_pos (by simp; omega), if_pos (by simp; omega)]

/-- C4: with the cooldown elapsed, a single jump with `delta >
sensitivity` while closed emits exactly one `OpenedEvent` and sets
`isChestOpen` to true, and a single drop with `delta < -sensitivity`
while open emits exactly one `ClosedEvent` and sets `isChestOpen` to
false (the `Option Event` result makes one event per call the maximum). -/
theorem c4_single_jump_and_drop (s : DetectorState) (brightness now : Int)
    (h : triggerCooldown ≤ now - s.lastTriggerTime) :
    (brightness - s.previousLightLevel > s.sensitivity → s.isChestOpen = false →
      (detectLightLevel s brightness now).1 = some Event.OpenedEvent ∧
        (detectLightLevel s brightness now).2.isChestOpen = true) ∧
    (brightness - s.previousLightLevel < -s.sensitivity → s.isChestOpen = true →
      (detectLightLevel s brightness now).1 = some Event.ClosedEvent ∧
        (detectLightLevel s brightness now).2.isChestOpen = false) := by
  have h1 : ¬ (now - s.lastTriggerTime < triggerCooldown) := by omega
  constructor <;> intro hd hopen
  · have h2 : brightness - s.previousLightLevel > s.sensitivity ∧
        s.isChestOpen = false := ⟨hd, hopen⟩
    simp only [detectLightLevel, if_neg h1, if_pos h2]
    rw [if_neg (by simp only [triggerCooldown]; omega)]
    exact ⟨rfl, rfl⟩
  · have h2 : ¬ (brightness - s.previousLightLevel > s.sensitivity ∧
        s.isChestOpen = false) := by
      simp [hopen]
    have h3 : brightness - s.previousLightLevel < -s.sensitivity ∧
        s.isChestOpen = true := ⟨hd, hopen⟩
    simp only [detectLightLevel, if_neg h1, if_neg h2, if_pos h3]
    rw [if_neg (by simp only [triggerCooldown]; omega)]
    exact ⟨rfl, rfl⟩

/-- Witness for C4: at sensitivity 10 with cooldown elapsed, a jump from
50 to 70 while closed opens, and a drop from 50 to 20 while open closes. -/
theorem c4_single_jump_and_drop_witness :
    ((detectLightLevel ⟨50, false, 0, 10⟩ 70 2000).1 = some Event.OpenedEvent ∧
      (detectLightLevel ⟨50, false, 0, 10⟩ 70 2000).2.isChestOpen = true) ∧
    ((detectLightLevel ⟨50, true, 0, 10⟩ 20 2000).1 = some Event.ClosedEvent ∧
      (detectLightLevel ⟨50, true, 0, 10⟩ 20 2000).2.isChestOpen = false) :=
  ⟨(c4_single_jump_and_drop ⟨50, false, 0, 10⟩ 70 2000 (by decide)).1
      (by decide) rfl,
   (c4_single_jump_and_drop ⟨50, true, 0, 10⟩ 20 2000 (by decide)).2
      (by decide) rfl⟩

/-- Observing a sample equal to the current baseline never emits an event
and leaves the state unchanged, as long as the sensitivity is not
negative (a zero delta is neither strictly above a nonnegative
sensitivity nor strictly below its negation). -/
lemma detect_same_level (s : DetectorState) (t : Int) (hsens : 0 ≤ s.sensitivity) :
    detectLightLevel s s.previousLightLevel t = (none, s) := by
  have h2 : ¬ (s.previousLightLevel - s.previousLightLevel > s.sensitivity ∧
      s.isChestOpen = false) := by
    rintro ⟨hgt, -⟩; omega
  have h3 : ¬ (s.previousLightLevel - s.previousLightLevel < -s.sensitivity ∧
      s.isChestOpen = true) := by
    rintro ⟨hlt, -⟩; omega
  by_cases h1 : t - s.lastTriggerTime < triggerCooldown
  · simp only [detectLightLevel, if_pos h1]
  · simp only [detectLightLevel, if_neg h1, if_neg h2, if_neg h3]
    rw [if_pos (by simp; omega)]

/-- C5 counterexample: the claim quantifies over every reachable starting
state, but after a trigger the baseline stays frozen, so a reachable
state can hold `previousLightLevel = 100` while the chest is open; the
constant sample sequence 20, 20 then emits a `ClosedEvent` even though
every sample has the same value.  The starting state is reached from the
reset state by observing 100 at t=2000 and 100 at t=4000. -/
theorem c5_constant_sequence_counterexample :
    runEvents (runState initState [(100, 2000), (100, 4000)])
      [(20, 6000), (20, 8200)] = [Event.ClosedEvent] := by decide

/-- C5 amended: over any state whose baseline `previousLightLevel`
already equals the constant sample value and whose sensitivity is
nonnegative, a sequence of samples of that constant value emits no event
at any step (the delta stays 0 throughout). -/
theorem c5_constant_sequence_amended (inputs : List (Int × Int)) (c : Int) :
    ∀ s : DetectorState, (∀ p ∈ inputs, p.1 = c) →
      s.previousLightLevel = c → 0 ≤ s.sensitivity →
      runEvents s inputs = [] := by
  induction inputs with
  | nil => intro s _ _ _; rfl
  | cons hd tl ih =>
    obtain ⟨b, t⟩ := hd
    intro s hall hprev hsens
    have hb : b = s.previousLightLevel := by
      have hc : b = c := hall (b, t) (List.mem_cons_self _ _)
      rw [hc, hprev]
    simp only [runEvents, hb, detect_same_level s t hsens, Option.toList,
      List.nil_append]
    exact ih s (fun p hp => hall p (List.mem_cons_of_mem _ hp)) hprev hsens

/-- Witness for the amended C5: from a state with baseline 50 and
sensitivity 10, the constant sequence 50, 50 emits nothing. -/
theorem c5_constant_sequence_amended_witness :
    runEvents ⟨50, false, 0, 10⟩ [(50, 2000), (50, 2500)] = [] :=
  c5_constant_sequence_amended [(50, 2000), (50, 2500)] 50 ⟨50, false, 0, 10⟩
    (by decide) rfl (by decide)

/-- C6 counterexample: with a negative sensitivity (-5), a zero delta
satisfies `delta > sensitivity` while the chest is already open, yet the
code emits a `ClosedEvent` (the second branch `delta < -sensitivity`
also holds) and flips `isChestOpen` — so the claim fails as stated for
arbitrary states. -/
theorem c6_idempotence_counterexample :
    ¬ ((detectLightLevel ⟨50, true, 0, -5⟩ 50 2000).1 = none ∧
       (detectLightLevel ⟨50, true, 0, -5⟩ 50 2000).2.isChestOpen = true) := by
  decide

/-- C6 amended: for states with nonnegative sensitivity, a delta that
would trigger a transition into the state the detector is already in
(increase past the threshold while already open, or decrease past it
while already closed) emits no event and leaves `isChestOpen`
unchanged. -/
theorem c6_idempotence_amended (s : DetectorState) (brightness now : Int)
    (hsens : 0 ≤ s.sensitivity) :
    (brightness - s.previousLightLevel > s.sensitivity → s.isChestOpen = true →
      (detectLightLevel s brightness now).1 = none ∧
        (detectLightLevel s brightness now).2.isChestOpen = true) ∧
    (brightness - s.previousLightLevel < -s.sensitivity → s.isChestOpen = false →
      (detectLightLevel s brightness now).1 = none ∧
        (detectLightLevel s brightness now).2.isChestOpen = false) := by
  constructor <;> intro hd hopen
  · have h2 : ¬ (brightness - s.previousLightLevel > s.sensitivity ∧
        s.isChestOpen = false) := by simp [hopen]
    have h3 : ¬ (brightness - s.previousLightLevel < -s.sensitivity ∧
        s.isChestOpen = true) := by
      rintro ⟨hlt, -⟩; omega
    by_cases h1 : now - s.lastTriggerTime < triggerCooldown
    · simp [detectLightLevel, if_pos h1, hopen]
    · simp only [detectLightLevel, if_neg h1, if_neg h2, if_neg h3]
      split_ifs with h4 <;> simp [hopen]
  · have h2 : ¬ (brightness - s.previousLightLevel > s.sensitivity ∧
        s.isChestOpen = false) := by
      rintro ⟨hgt, -⟩; omega
    have h3 : ¬ (brightness - s.previousLightLevel < -s.sensitivity ∧
        s.isChestOpen = true) := by simp [hopen]
    by_cases h1 : now - s.lastTriggerTime < triggerCooldown
    · simp [detectLightLevel, if_pos h1, hopen]
    · simp only [detectLightLevel, if_neg h1, if_neg h2, if_neg h3]
      split_ifs with h4 <;> simp [hopen]

/-- Witness for the amended C6: at sensitivity 10 with cooldown elapsed,
a jump from 50 to 70 while already open emits nothing and stays open,
and a drop from 50 to 20 while already closed emits nothing and stays
closed. -/
theorem c6_idempotence_amended_witness :
    ((detectLightLevel ⟨50, true, 0, 10⟩ 70 2000).1 = none ∧
      (detectLightLevel ⟨50, true, 0, 10⟩ 70 2000).2.isChestOpen = true) ∧
    ((detectLightLevel ⟨50, false, 0, 10⟩ 20 2000).1 = none ∧
      (detectLightLevel ⟨50, false, 0, 10⟩ 20 2000).2.isChestOpen = false) :=
  ⟨(c6_idempotence_amended ⟨50, true, 0, 10⟩ 70 2000 (by decide)).1
      (by decide) rfl,
   (c6_idempotence_amended ⟨50, false, 0, 10⟩ 20 2000 (by decide)).2
      (by decide) rfl⟩

/-- C7: the concrete scenario of the spec's section 8, with the detector
evaluated step by step: sensitivity 10, baseline 50, closed, cooldown
elapsed at t=0; sample 70 at t=0 emits `OpenedEvent` with
`isChestOpen = true` and `lastTriggerTime = 0` (baseline frozen at 50);
sample 20 at t=500 (inside the cooldown) emits nothing and leaves the
state, baseline 50 included, untouched; sample 20 at t=2100 emits
`ClosedEvent` with `isChestOpen = false`. -/
theorem c7_concrete_scenario :
    detectLightLevel ⟨50, false, -2000, 10⟩ 70 0 =
        (some Event.OpenedEvent, ⟨50, true, 0, 10⟩) ∧
      detectLightLevel ⟨50, true, 0, 10⟩ 20 500 = (none, ⟨50, true, 0, 10⟩) ∧
      detectLightLevel ⟨50, true, 0, 10⟩ 20 2100 =
        (some Event.ClosedEvent, ⟨50, false, 2100, 10⟩) := by
  decide

/-- C8 counterexample: a delta whose absolute value is exactly the
sensitivity does NOT trigger — the code's comparisons are strict
(`>` / `<`).  With sensitivity 10, baseline 50, cooldown elapsed: sample
60 (delta 10) while closed emits nothing, and sample 40 (delta -10)
while open emits nothing, where the claim says the corresponding events
are emitted. -/
theorem c8_exact_threshold_counterexample :
    (detectLightLevel ⟨50, false, 0, 10⟩ 60 2000).1 = none ∧
      (detectLightLevel ⟨50, true, 0, 10⟩ 40 2000).1 = none := by decide

/-- C8 amended: the sensitivity threshold is strict — a delta of absolute
value exactly equal to the sensitivity emits no event and leaves
`isChestOpen` unchanged, whatever the open flag, even with the cooldown
elapsed; only a delta strictly beyond the sensitivity can trigger. -/
theorem c8_strict_threshold_amended (s : DetectorState) (brightness now : Int)
    (h : triggerCooldown ≤ now - s.lastTriggerTime)
    (habs : |brightness - s.previousLightLevel| = s.sensitivity) :
    (detectLightLevel s brightness now).1 = none ∧
      (detectLightLevel s brightness now).2.isChestOpen = s.isChestOpen := by
  have h1 : ¬ (now - s.lastTriggerTime < triggerCooldown) := by omega
  have hle : brightness - s.previousLightLevel ≤ s.sensitivity :=
    habs ▸ le_abs_self _
  have hge : -s.sensitivity ≤ brightness - s.previousLightLevel :=
    habs ▸ neg_abs_le _
  have h2 : ¬ (brightness - s.previousLightLevel > s.sensitivity ∧
      s.isChestOpen = false) := by
    rintro ⟨hgt, -⟩; omega
  have h3 : ¬ (brightness - s.previousLightLevel < -s.sensitivity ∧
      s.isChestOpen = true) := by
    rintro ⟨hlt, -⟩; omega
  simp only [detectLightLevel, if_neg h1, if_neg h2, if_neg h3]
  rw [if_pos (by simp; omega)]
  exact ⟨rfl, rfl⟩

/-- Witness for the amended C8: sensitivity 10, baseline 50, sample 60,
cooldown elapsed — no event, flag unchanged. -/
theorem c8_strict_threshold_amended_witness :
    (detectLightLevel ⟨50, false, 0, 10⟩ 60 2000).1 = none ∧
      (detectLightLevel ⟨50, false, 0, 10⟩ 60 2000).2.isChestOpen =
        (⟨50, false, 0, 10⟩ : DetectorState).isChestOpen :=
  c8_strict_threshold_amended ⟨50, false, 0, 10⟩ 60 2000 (by decide) (by decide)

/-- C9: the observe step is total and pure — for every state, every
integer brightness sample and every timestamp it returns an optional
event and an updated state; there is no error case (the embedding is a
total function, as the source has no throwing operation on this path). -/
theorem c9_observe_total :
    ∀ (s : DetectorState) (brightness now : Int),
      ∃ (ev : Option Event) (s' : DetectorState),
        detectLightLevel s brightness now = (ev, s') :=
  fun s brightness now =>
    ⟨(detectLightLevel s brightness now).1,
      (detectLightLevel s brightness now).2, rfl⟩

/-- Strict alternation checker for an event list: starting from an open
flag, an `OpenedEvent` is allowed only while the flag is false and flips
it, a `ClosedEvent` only while the flag is true. -/
def alternating : Bool → List Event → Bool
  | _, [] => true
  | false, Event.OpenedEvent :: rest => alternating true rest
  | true, Event.ClosedEvent :: rest => alternating false rest
  | _, _ => false

/-- Every single observe call relates the emitted event to the open flag:
no event leaves the flag alone, an `OpenedEvent` happens exactly from a
closed state and opens it, a `ClosedEvent` from an open state and closes
it. -/
lemma detect_isChestOpen_cases (s : DetectorState) (b t : Int) :
    ((detectLightLevel s b t).1 = none ∧
      (detectLightLevel s b t).2.isChestOpen = s.isChestOpen) ∨
    ((detectLightLevel s b t).1 = some Event.OpenedEvent ∧
      s.isChestOpen = false ∧ (detectLightLevel s b t).2.isChestOpen = true) ∨
    ((detectLightLevel s b t).1 = some Event.ClosedEvent ∧
      s.isChestOpen = true ∧ (detectLightLevel s b t).2.isChestOpen = false) := by
  by_cases h1 : t - s.lastTriggerTime < triggerCooldown
  · left
    simp [detectLightLevel, if_pos h1]
  · by_cases h2 : b - s.previousLightLevel > s.sensitivity ∧
        s.isChestOpen = false
    · right; left
      simp only [detectLightLevel, if_neg h1, if_pos h2]
      rw [if_neg (by simp only [triggerCooldown]; omega)]
      exact ⟨rfl, h2.2, rfl⟩
    · by_cases h3 : b - s.previousLightLevel < -s.sensitivity ∧
          s.isChestOpen = true
      · right; right
        simp only [detectLightLevel, if_neg h1, if_neg h2, if_pos h3]
        rw [if_neg (by simp only [triggerCooldown]; omega)]
        exact ⟨rfl, h3.2, rfl⟩
      · left
        simp only [detectLightLevel, if_neg h1, if_neg h2, if_neg h3]
        split_ifs with h4 <;> exact ⟨rfl, rfl⟩

/-- Over any run, the emitted event list passes the alternation check
started at the current open flag. -/
lemma alternating_runEvents (inputs : List (Int × Int)) :
    ∀ s : DetectorState, alternating s.isChestOpen (runEvents s inputs) = true := by
  induction inputs with
  | nil =>
    intro s
    cases s.isChestOpen <;> rfl
  | cons hd tl ih =>
    obtain ⟨b, t⟩ := hd
    intro s
    rcases detect_isChestOpen_cases s b t with
      ⟨h1, h2⟩ | ⟨h1, h2, h3⟩ | ⟨h1, h2, h3⟩
    · simp only [runEvents, h1, Option.toList, List.nil_append]
      have hrec := ih (detectLightLevel s b t).2
      rw [h2] at hrec
      exact hrec
    · simp only [runEvents, h1, Option.toList, List.cons_append,
        List.nil_append, h2]
      show alternating true (runEvents (detectLightLevel s b t).2 tl) = true
      have hrec := ih (detectLightLevel s b t).2
      rw [h3] at hrec
      exact hrec
    · simp only [runEvents, h1, Option.toList, List.cons_append,
        List.nil_append, h2]
      show alternating false (runEvents (detectLightLevel s b t).2 tl) = true
      have hrec := ih (detectLightLevel s b t).2
      rw [h3] at hrec
      exact hrec

/-- C10: starting from any state with the chest flag false (the initial
state in particular), the emitted events strictly alternate: the first
event, if any, is an `OpenedEvent`, each `OpenedEvent` is emitted only
with the flag false, each `ClosedEvent` only with it true, so two
consecutive events never have the same kind. -/
theorem c10_events_alternate (s : DetectorState) (inputs : List (Int × Int))
    (h : s.isChestOpen = false) :
    alternating false (runEvents s inputs) = true := by
  rw [← h]
  exact alternating_runEvents inputs s

/-- Witness for C10: from the reset state, a jump to 100 then a drop to
20 emits Opened then Closed, which alternates. -/
theorem c10_events_alternate_witness :
    alternating false (runEvents initState [(100, 2000), (20, 4100)]) = true :=
  c10_events_alternate initState [(100, 2000), (20, 4100)] rfl
